import Mathlib

/-!
Verification development for the SolarSenseAI rooftop-PV estimation core.

The two numerical subsystems are embedded shallowly over exact rationals:

* the PV energy model of `server/src/services/financialService.ts`
  (`calculateSystemCapacity`, `estimateMonthlyGHI`, `computePVFromZonalStats`);
* the raster zonal-statistics sampler of
  `server/src/services/geoTiffService.ts` (`sampleGeoTIFFForPolygon`);
* the irradiance decomposition of
  `server/src/services/tiltCorrectionService.ts` (`erbsDiffuseFraction` and
  the DNI back-derivation).

JavaScript `number` arithmetic is modelled by `ℚ`; where the code can divide
by zero (IEEE `NaN`/`Infinity`) the Lean convention `q / 0 = 0` is noted at
the point of use.  External library calls (turf point-in-polygon, centroid
and bbox, `Math.cos` of the solar zenith) are modelled as oracle parameters,
since they are third-party collaborators, not code of this repository.
-/

namespace SolarSense

/-- Models the JavaScript expression `x || d` for an optional number `x`
(`financialService.ts` uses `||` defaults where both `undefined` and `0`
are falsy and replaced by `d`). -/
def truthyOr (x : Option ℚ) (d : ℚ) : ℚ :=
  match x with
  | some v => if v = 0 then d else v
  | none => d

/-- Panel technology keys (`financialService.ts` line 600). -/
inductive PanelTechnology
  | mono
  | poly
  | thinfilm
deriving DecidableEq

/-- Grid system keys (`financialService.ts` line 605). -/
inductive GridSystemType
  | on_grid
  | hybrid
  | off_grid
deriving DecidableEq

/-- `PanelTechProfile` (`financialService.ts` lines 611-617), numeric fields. -/
structure PanelTechProfile where
  temperatureCoefficient : ℚ
  noct : ℚ
  typicalEfficiency : ℚ
  modulePowerW : ℚ
  moduleArea : ℚ
deriving DecidableEq

/-- `PanelTechProfiles` lookup table (`financialService.ts` lines 619-641). -/
def PanelTechProfiles : PanelTechnology → PanelTechProfile
  | .mono => ⟨-0.35, 45, 0.21, 420, 1.7⟩
  | .poly => ⟨-0.40, 45, 0.17, 400, 1.8⟩
  | .thinfilm => ⟨-0.25, 44, 0.13, 150, 1.2⟩

/-- `GridProfiles[_].usableFraction` (`financialService.ts` lines 652-665). -/
def gridUsableFraction : GridSystemType → ℚ
  | .on_grid => 1.0
  | .hybrid => 0.95
  | .off_grid => 0.85

/-- Result record of `calculateSystemCapacity`. -/
structure SystemCapacity where
  area_eff : ℚ
  num_panels : ℤ
  P_dc_kWp : ℚ
  P_ac_kW : ℚ
deriving DecidableEq

/-- `calculateSystemCapacity` (`financialService.ts` lines 671-684):
`area_eff = area_m2 * packingFactor`, `num_panels = floor(area_eff / moduleArea)`,
`P_dc_kWp = num_panels * modulePowerW / 1000`, `P_ac_kW = P_dc_kWp / dcAcRatio`. -/
def calculateSystemCapacity (area_m2 moduleArea modulePowerW packingFactor dcAcRatio : ℚ) :
    SystemCapacity :=
  let area_eff := area_m2 * packingFactor
  let num_panels := ⌊area_eff / moduleArea⌋
  let P_dc_kWp := ((num_panels : ℚ) * modulePowerW) / 1000
  let P_ac_kW := P_dc_kWp / dcAcRatio
  ⟨area_eff, num_panels, P_dc_kWp, P_ac_kW⟩

/-- Base seasonal monthly factors (`financialService.ts` lines 720-723). -/
def baseFactors : List ℚ :=
  [0.85, 0.90, 1.05, 1.10, 1.15, 1.20, 1.15, 1.10, 1.05, 0.95, 0.90, 0.85]

/-- Latitude-dependent variation amplitude (`financialService.ts` lines 729-744). -/
def variationFactor (absLat : ℚ) : ℚ :=
  if absLat < 15 then 0.05
  else if absLat < 30 then 0.10
  else if absLat < 45 then 0.15
  else 0.20

/-- `estimateMonthlyGHI` (`financialService.ts` lines 709-765): clamp the
latitude, shape the base factors by the variation amplitude, renormalize the
factors so they sum to 12, rotate by six months for the southern hemisphere,
then scale the annual GHI by each factor. -/
def estimateMonthlyGHI (annualGHI latitude : ℚ) : List ℚ :=
  let lat := max (-90) (min 90 latitude)
  let absLat := |lat|
  let v := variationFactor absLat
  let monthlyFactors := baseFactors.map (fun factor => 1 + (factor - 1) * v)
  let s := monthlyFactors.sum
  let normalizedFactors := monthlyFactors.map (fun f => f * 12 / s)
  let finalFactors :=
    if lat < 0 then normalizedFactors.drop 6 ++ normalizedFactors.take 6
    else normalizedFactors
  finalFactors.map (fun factor => annualGHI * factor)

/-- The per-layer inputs consumed by `computePVFromZonalStats`
(`financialService.ts` lines 848-865).  Each field models `layers.X?.mean`:
`none` when the layer is absent from the record.  `pvoutMonthly i` models
`layers[PVOUT_<i+1>]?.mean` for the twelve monthly reference-yield layers. -/
structure LayerMeans where
  GHI : Option ℚ
  DNI : Option ℚ
  DIF : Option ℚ
  GTI : Option ℚ
  PVOUT : Option ℚ
  TEMP : Option ℚ
  OPTA : Option ℚ
  ELE : Option ℚ
  pvoutMonthly : Fin 12 → Option ℚ

/-- The `pvout_monthly_kwh_kwp` array built by the loop at
`financialService.ts` lines 859-865: the means of the monthly PVOUT layers
that are present, in month order. -/
def monthlyPVOUT (layers : LayerMeans) : List ℚ :=
  (List.finRange 12).filterMap layers.pvoutMonthly

/-- Numeric fields of `PVSystemPreset` (`financialService.ts` lines 495-533)
used by the energy model; optional fields are `Option`. -/
structure PVSystemPreset where
  panelEfficiency : ℚ
  tilt : ℚ
  azimuth : ℚ
  performanceRatio : ℚ
  moduleArea : Option ℚ
  modulePowerW : Option ℚ
  packingFactor : Option ℚ
  dcAcRatio : Option ℚ
  temperatureCoefficient : Option ℚ
  noct : Option ℚ
  capacity_kWp : Option ℚ

/-- The `options` argument of `computePVFromZonalStats`
(`financialService.ts` lines 839-846). -/
structure PVOptions where
  installed_capacity_kWp : Option ℚ
  latitude : Option ℚ
  longitude : Option ℚ
  useTiltCorrection : Option Bool
  panelTechnology : Option PanelTechnology
  gridType : Option GridSystemType

/-- `options` left entirely `undefined`. -/
def PVOptions.none : PVOptions := ⟨Option.none, Option.none, Option.none,
  Option.none, Option.none, Option.none⟩

/-- Reference-yield unit resolution (`financialService.ts` lines 915-942):
a complete 12-month reference array is annualized by `× 30.4375` when its sum
is below 100 and taken as-is otherwise; a positive scalar reference is
annualized by `× 365` when below 10 and taken as-is otherwise; otherwise the
fallback `ghi_mean × 365 × performanceRatio` applies. -/
def resolveAnnualSpecificYield (monthly : List ℚ) (refPVOUT : Option ℚ)
    (ghi_mean pr : ℚ) : ℚ :=
  if monthly.length = 12 then
    let monthlySum := monthly.sum
    if monthlySum < 100 then monthlySum * 30.4375 else monthlySum
  else
    match refPVOUT with
    | some r => if 0 < r then (if r < 10 then r * 365 else r)
                else ghi_mean * 365 * pr
    | none => ghi_mean * 365 * pr

/-- Technology temperature correction (`financialService.ts` lines 893-908):
`f = 1 + (gamma_tech - gamma_ref) * (T_cell - 25)` with
`T_cell = temp_mean + (NOCT - 20)`, clamped to `[0.9, 1.05]`. -/
def techTempFactor (profile : PanelTechProfile) (temp_mean : ℚ) : ℚ :=
  let gamma_tech := profile.temperatureCoefficient / 100
  let gamma_ref : ℚ := -0.0035
  let T_cell_avg := temp_mean + (profile.noct - 20)
  let f := 1 + (gamma_tech - gamma_ref) * (T_cell_avg - 25)
  max 0.9 (min 1.05 f)

/-- Fields of `PVCalculationResult` (`financialService.ts` lines 770-830)
that the numerical model computes (string echoes and duplicated legacy
aliases of the same values are omitted). -/
structure PVCalculationResult where
  area_m2 : ℚ
  area_effective_m2 : ℚ
  num_panels : ℤ
  P_dc_kWp : ℚ
  P_ac_kW : ℚ
  ghi_mean : ℚ
  temp_mean : ℚ
  f_tech_temp : ℚ
  yearly_kWh_calibrated : ℚ
  yearly_kWh_usable : ℚ
  specific_yield_kwh_kwp_calibrated : ℚ
  monthly_kWh_usable : List ℚ
deriving DecidableEq

/-- `computePVFromZonalStats` (`financialService.ts` lines 835-1052).
The function is total: the source has no throw on zero panel count or zero
DC capacity, and the specific-yield division at line 951 is performed
unconditionally (under the `ℚ` model `x / 0 = 0`; at runtime it is `NaN`). -/
def computePVFromZonalStats (area_m2 : ℚ) (layers : LayerMeans)
    (systemConfig : PVSystemPreset) (options : PVOptions) : PVCalculationResult :=
  let ghi_mean := truthyOr layers.GHI 0
  let pvout_reference := layers.PVOUT
  let temp_mean := truthyOr layers.TEMP 25
  let pvout_monthly := monthlyPVOUT layers
  let panelTechnology := options.panelTechnology.getD .mono
  let gridType := options.gridType.getD .on_grid
  let techProfile := PanelTechProfiles panelTechnology
  let moduleArea := systemConfig.moduleArea.getD techProfile.moduleArea
  let modulePowerW := systemConfig.modulePowerW.getD techProfile.modulePowerW
  let packingFactor := systemConfig.packingFactor.getD 0.8
  let dcAcRatio := systemConfig.dcAcRatio.getD 1.15
  let cap := calculateSystemCapacity area_m2 moduleArea modulePowerW packingFactor dcAcRatio
  let finalP_dc_kWp := truthyOr options.installed_capacity_kWp cap.P_dc_kWp
  let f_tech_temp := techTempFactor techProfile temp_mean
  let pvout_annual_specific_yield :=
    resolveAnnualSpecificYield pvout_monthly pvout_reference ghi_mean
      systemConfig.performanceRatio
  let base_production := finalP_dc_kWp * pvout_annual_specific_yield
  let yearly_kWh_calibrated := base_production * f_tech_temp
  let specific_yield_kwh_kwp_calibrated := yearly_kWh_calibrated / finalP_dc_kWp
  let yearly_kWh_usable := yearly_kWh_calibrated * gridUsableFraction gridType
  let monthly_kWh_usable :=
    if pvout_monthly.length = 12 then
      let totalRaw := pvout_monthly.sum
      (pvout_monthly.map (fun m => m / totalRaw)).map (fun s => s * yearly_kWh_usable)
    else
      let lat := truthyOr options.latitude 20
      let monthlyGHI := estimateMonthlyGHI ghi_mean lat
      let totalGHI := monthlyGHI.sum
      (monthlyGHI.map (fun g => g / totalGHI)).map (fun s => s * yearly_kWh_usable)
  { area_m2 := area_m2
    area_effective_m2 := cap.area_eff
    num_panels := cap.num_panels
    P_dc_kWp := finalP_dc_kWp
    P_ac_kW := cap.P_ac_kW
    ghi_mean := ghi_mean
    temp_mean := temp_mean
    f_tech_temp := f_tech_temp
    yearly_kWh_calibrated := yearly_kWh_calibrated
    yearly_kWh_usable := yearly_kWh_usable
    specific_yield_kwh_kwp_calibrated := specific_yield_kwh_kwp_calibrated
    monthly_kWh_usable := monthly_kWh_usable }

/-- Georeferencing of an opened raster (`geoTiffService.ts` lines 42-45 and
96): pixel dimensions, geographic bounding box, GDAL nodata sentinel, and
the band values.  `sample x y` models `rasterArray` read at global pixel
`(x, y)`; the raster is an external read-only input, so it is a parameter. -/
structure RasterImage where
  width : ℕ
  height : ℕ
  minX : ℚ
  minY : ℚ
  maxX : ℚ
  maxY : ℚ
  nodata : Option ℚ
  sample : ℕ → ℕ → ℚ

/-- Results of the turf library calls made on the query polygon
(`geoTiffService.ts` lines 73-74, 130-132, 154-156): its bounding box, the
point-in-polygon test, and its centroid.  turf is an external collaborator,
so these are oracle inputs. -/
structure PolygonOracle where
  bboxMinX : ℚ
  bboxMinY : ℚ
  bboxMaxX : ℚ
  bboxMaxY : ℚ
  contains : ℚ → ℚ → Bool
  centroidLon : ℚ
  centroidLat : ℚ

/-- `lonToX` (`geoTiffService.ts` lines 63-65): fractional pixel column. -/
def lonToX (img : RasterImage) (lon : ℚ) : ℚ :=
  ((lon - img.minX) / (img.maxX - img.minX)) * ((img.width : ℚ) - 1)

/-- `latToY` (`geoTiffService.ts` lines 67-70): fractional pixel row, with
row 0 at `maxY` (top-left origin). -/
def latToY (img : RasterImage) (lat : ℚ) : ℚ :=
  ((img.maxY - lat) / (img.maxY - img.minY)) * ((img.height : ℚ) - 1)

/-- Pixel-center longitude (`geoTiffService.ts` line 126):
`lon = minX + (globalX + 0.5) * (maxX - minX) / width`. -/
def pixelCenterLon (img : RasterImage) (globalX : ℤ) : ℚ :=
  img.minX + ((globalX : ℚ) + 0.5) * (img.maxX - img.minX) / (img.width : ℚ)

/-- Pixel-center latitude (`geoTiffService.ts` line 127):
`lat = maxY - (globalY + 0.5) * (maxY - minY) / height`. -/
def pixelCenterLat (img : RasterImage) (globalY : ℤ) : ℚ :=
  img.maxY - ((globalY : ℚ) + 0.5) * (img.maxY - img.minY) / (img.height : ℚ)

/-- JavaScript `Math.round`: round half up, `⌊x + 0.5⌋`. -/
def jsRound (x : ℚ) : ℤ := ⌊x + 0.5⌋

/-- The clamped integer pixel window (`geoTiffService.ts` lines 77-80). -/
structure PixelWindow where
  xMin : ℤ
  xMax : ℤ
  yMin : ℤ
  yMax : ℤ
deriving DecidableEq

/-- Window computation (`geoTiffService.ts` lines 77-80): floor/ceil of the
polygon bbox corners in pixel space, clamped to the raster bounds (note the
Y-axis flip: `yMin` comes from the bbox's maximum latitude). -/
def computeWindow (img : RasterImage) (p : PolygonOracle) : PixelWindow :=
  { xMin := max 0 ⌊lonToX img p.bboxMinX⌋
    xMax := min ((img.width : ℤ) - 1) ⌈lonToX img p.bboxMaxX⌉
    yMin := max 0 ⌊latToY img p.bboxMaxY⌋
    yMax := min ((img.height : ℤ) - 1) ⌈latToY img p.bboxMinY⌉ }

/-- `windowWidth = xMax - xMin + 1` (`geoTiffService.ts` line 88). -/
def PixelWindow.winW (w : PixelWindow) : ℕ := (w.xMax - w.xMin + 1).toNat

/-- `windowHeight = yMax - yMin + 1` (`geoTiffService.ts` line 89). -/
def PixelWindow.winH (w : PixelWindow) : ℕ := (w.yMax - w.yMin + 1).toNat

/-- The window read (`geoTiffService.ts` lines 92-110): the first band of
the requested window, row-major (`idx = y * windowWidth + x`). -/
def readWindow (img : RasterImage) (w : PixelWindow) : List ℚ :=
  (List.range (w.winH * w.winW)).map (fun idx =>
    img.sample (w.xMin + (idx % w.winW : ℕ)).toNat (w.yMin + (idx / w.winW : ℕ)).toNat)

/-- Adaptive sampling stride (`geoTiffService.ts` line 117):
`step = max(1, floor(sqrt(windowWidth * windowHeight) / 500))`.
`Nat.sqrt` is the floor of the real square root, and flooring after the
division by 500 agrees with flooring before it. -/
def sampleStep (winW winH : ℕ) : ℕ := max 1 (Nat.sqrt (winW * winH) / 500)

/-- The offsets visited by `for (i = 0; i < n; i += step)`. -/
def strideOffsets (n step : ℕ) : List ℕ :=
  (List.range ((n + step - 1) / step)).map (· * step)

/-- Validity filter on one sample (`geoTiffService.ts` lines 137-144): not
the nodata sentinel and above the `-9999` sentinel floor.  The `NaN` /
non-finite / non-number checks of the source are vacuous over `ℚ`. -/
def isValidSample (nodata : Option ℚ) (v : ℚ) : Bool :=
  (match nodata with
   | some nd => decide (v ≠ nd)
   | none => true) && decide (-9999 < v)

/-- The values accepted by the adaptive-stride pass
(`geoTiffService.ts` lines 112-150): pixel centers at the chosen stride,
filtered by the point-in-polygon oracle, the buffer bound check, and the
sample-validity test, in loop order (y outer, x inner). -/
def strideValues (img : RasterImage) (p : PolygonOracle) : List ℚ :=
  let w := computeWindow img p
  let buf := readWindow img w
  let step := sampleStep w.winW w.winH
  (strideOffsets w.winH step).flatMap (fun (y : ℕ) =>
    (strideOffsets w.winW step).filterMap (fun (x : ℕ) =>
      let globalX := w.xMin + (x : ℤ)
      let globalY := w.yMin + (y : ℤ)
      let lon := pixelCenterLon img globalX
      let lat := pixelCenterLat img globalY
      if p.contains lon lat then
        let idx := y * w.winW + x
        if idx < buf.length then
          let v := buf.getD idx 0
          if isValidSample img.nodata v then some v else none
        else none
      else none))

/-- The centroid-fallback sample (`geoTiffService.ts` lines 152-175): the
pixel nearest the polygon centroid, sampled directly without the
point-in-polygon test, accepted when it lies in the window that was read
and its value is valid. -/
def centroidValue (img : RasterImage) (p : PolygonOracle) : Option ℚ :=
  let w := computeWindow img p
  let buf := readWindow img w
  let cX := ⌊lonToX img p.centroidLon⌋
  let cY := ⌊latToY img p.centroidLat⌋
  if w.xMin ≤ cX ∧ cX ≤ w.xMax ∧ w.yMin ≤ cY ∧ cY ≤ w.yMax then
    let localX := (cX - w.xMin).toNat
    let localY := (cY - w.yMin).toNat
    let idx := localY * w.winW + localX
    if idx < buf.length then
      let v := buf.getD idx 0
      if isValidSample img.nodata v then some v else none
    else none
  else none

/-- Failure modes of the sampler (`geoTiffService.ts` lines 83-85 and
177-179). -/
inductive SampleError
  | outOfCoverage
  | noValidData
deriving DecidableEq

/-- `ZonalStats` (`geoTiffService.ts` lines 12-20), numeric fields.  The
source's `std` is `Math.sqrt(variance)`; the rational square `variance` is
stored so the record stays exactly computable. -/
structure ZonalStats where
  mean : ℚ
  median : ℚ
  min : ℚ
  max : ℚ
  variance : ℚ
  count : ℕ
deriving DecidableEq

/-- The statistics block (`geoTiffService.ts` lines 181-203): sort
ascending, arithmetic mean, median averaging the two central values on even
count, min/max from the sorted ends, population variance
(`std = sqrt variance`). -/
def computeStats (values : List ℚ) : ZonalStats :=
  let sorted := List.insertionSort (· ≤ ·) values
  let n := sorted.length
  let mean := sorted.sum / (n : ℚ)
  let median :=
    if n % 2 = 0 then (sorted.getD (n / 2 - 1) 0 + sorted.getD (n / 2) 0) / 2
    else sorted.getD (n / 2) 0
  let variance := (sorted.map (fun v => (v - mean) ^ 2)).sum / (n : ℚ)
  { mean := mean
    median := median
    min := sorted.getD 0 0
    max := sorted.getD (n - 1) 0
    variance := variance
    count := n }

/-- The accepted value set after the centroid fallback
(`geoTiffService.ts` lines 152-175): the stride-pass values, or, when the
stride pass accepted nothing, the centroid sample if it was accepted. -/
def fallbackValues (img : RasterImage) (p : PolygonOracle) : List ℚ :=
  if strideValues img p = [] then
    match centroidValue img p with
    | some v => [v]
    | none => []
  else strideValues img p

/-- `sampleGeoTIFFForPolygon` (`geoTiffService.ts` lines 28-204), from the
point where the raster is open: empty clamped window fails with the
coverage error; then the stride pass, then the centroid fallback when it
produced nothing, then the no-valid-data error when both passed nothing,
otherwise the statistics of the accepted values. -/
def sampleGeoTIFFForPolygon (img : RasterImage) (p : PolygonOracle) :
    Except SampleError ZonalStats :=
  let w := computeWindow img p
  if w.xMin > w.xMax ∨ w.yMin > w.yMax then .error .outOfCoverage
  else
    let values := fallbackValues img p
    if values = [] then .error .noValidData
    else .ok (computeStats values)

/-- `erbsDiffuseFraction` (`tiltCorrectionService.ts` lines 36-50): the
diffuse fraction of GHI as a piecewise function of the clearness index
`kt = ghi / clearSkyGHI`.  (Over `ℚ`, `kt = 0` when `clearSkyGHI = 0`,
where the source's float division would give `±Infinity` or `NaN`.) -/
def erbsDiffuseFraction (ghi clearSkyGHI : ℚ) : ℚ :=
  let kt := ghi / clearSkyGHI
  if kt ≤ 0 then 1.0
  else if kt ≥ 0.8 then 0.165
  else if kt ≤ 0.22 then 1.0 - 0.09 * kt
  else if kt ≤ 0.8 then
    0.9511 - 0.1604 * kt + 4.388 * kt * kt - 16.638 * kt * kt * kt
      + 12.336 * kt * kt * kt * kt
  else 0.165

/-- The GHI decomposition branch of `calculateTiltCorrection`
(`tiltCorrectionService.ts` lines 161-175), taken when DNI/DIF are not
supplied: `dif = ghi × erbs fraction`, and DNI is back-derived as
`max(0, (ghi - dif) / cos(zenith))` except that it is zeroed when the solar
zenith exceeds 85°.  `cosZenith` stands for `Math.cos(degToRad(solarZenith))`,
an external transcendental primitive passed as an oracle. -/
def decomposeGHI (ghi clearSkyGHI solarZenith cosZenith : ℚ) : ℚ × ℚ :=
  let diffuseFraction := erbsDiffuseFraction ghi clearSkyGHI
  let dif := ghi * diffuseFraction
  let dni := if solarZenith > 85 then 0 else max 0 ((ghi - dif) / cosZenith)
  (dni, dif)

/-! Concrete fixtures used by witnesses and counterexamples. -/

/-- A 2×1 raster over bbox `[0,2] × [0,1]` with band values 3 and 7. -/
def imgTwoPixel : RasterImage :=
  ⟨2, 1, 0, 0, 2, 1, Option.none, fun x _ => if x = 0 then 3 else 7⟩

/-- A polygon covering `imgTwoPixel` entirely (oracle always inside). -/
def polyFull : PolygonOracle := ⟨0, 0, 2, 1, fun _ _ => true, 1, 1/2⟩

/-- A 1×1 raster over bbox `[0,1] × [0,1]` with constant band value 4. -/
def imgConst4 : RasterImage := ⟨1, 1, 0, 0, 1, 1, Option.none, fun _ _ => 4⟩

/-- A degenerate sub-pixel polygon at `(1/2, 1/2)` whose ring contains no
pixel center (oracle always outside), with centroid `(1/2, 1/2)`. -/
def polySubPixel : PolygonOracle :=
  ⟨1/2, 1/2, 1/2, 1/2, fun _ _ => false, 1/2, 1/2⟩

/-- Layers with only a scalar annual PVOUT reference of 1500 kWh/kWp. -/
def cexLayers : LayerMeans :=
  ⟨Option.none, Option.none, Option.none, Option.none, some 1500, Option.none,
   Option.none, Option.none, fun _ => Option.none⟩

/-- A system preset with the spec's scenario constants: module 1.7 m² / 420 W,
packing factor 0.8, DC:AC 1.15, performance ratio 0.75. -/
def cexPreset : PVSystemPreset :=
  ⟨0.21, 25, 180, 0.75, some 1.7, some 420, some 0.8, some 1.15,
   Option.none, Option.none, Option.none⟩

/-- Layers with all twelve monthly PVOUT reference layers present, each 100. -/
def layersMonthly : LayerMeans :=
  ⟨Option.none, Option.none, Option.none, Option.none, Option.none, Option.none,
   Option.none, Option.none, fun _ => some 100⟩

/-! Helper lemmas. -/

/-- A window of fewer than 250000 candidate pixels is sampled at stride 1. -/
theorem sampleStep_eq_one {a b : ℕ} (h : a * b < 250000) : sampleStep a b = 1 := by
  unfold sampleStep
  have h1 : Nat.sqrt (a * b) < 500 := Nat.sqrt_lt.mpr (by omega)
  have h2 : Nat.sqrt (a * b) / 500 = 0 := Nat.div_eq_of_lt h1
  simp [h2]

/-- Summing the share-scaled list: `Σ (mᵢ / t · Y) = (Σ mᵢ) / t · Y`. -/
theorem shares_sum_eq (l : List ℚ) (t Y : ℚ) :
    ((l.map (fun m => m / t)).map (fun s => s * Y)).sum = l.sum / t * Y := by
  induction l with
  | nil => simp
  | cons a t2 ih =>
    simp only [List.map_cons, List.sum_cons]
    rw [ih]
    ring

/-- The variation amplitude takes one of the four tabulated values. -/
theorem variationFactor_cases (a : ℚ) :
    variationFactor a = 0.05 ∨ variationFactor a = 0.10 ∨
    variationFactor a = 0.15 ∨ variationFactor a = 0.20 := by
  unfold variationFactor
  split_ifs <;> simp

/-- The latitude-based monthly estimator always returns 12 values. -/
theorem estimateMonthlyGHI_length (g lat : ℚ) : (estimateMonthlyGHI g lat).length = 12 := by
  simp only [estimateMonthlyGHI]
  split_ifs <;> simp [baseFactors]

/-- The renormalization and the six-month rotation make the 12 monthly values
sum to exactly `12 × annualGHI`. -/
theorem estimateMonthlyGHI_sum (g lat : ℚ) : (estimateMonthlyGHI g lat).sum = 12 * g := by
  simp only [estimateMonthlyGHI]
  rcases variationFactor_cases |max (-90 : ℚ) (min 90 lat)| with hv | hv | hv | hv <;>
    rw [hv] <;> split_ifs <;> norm_num [baseFactors] <;> ring

/-- `cexLayers` has no monthly reference layers. -/
theorem monthlyPVOUT_cex : monthlyPVOUT cexLayers = [] := by
  simp [monthlyPVOUT, cexLayers]

/-- `layersMonthly` yields twelve monthly reference values of 100. -/
theorem monthlyPVOUT_layersMonthly :
    monthlyPVOUT layersMonthly =
      [100, 100, 100, 100, 100, 100, 100, 100, 100, 100, 100, 100] := by
  simp [monthlyPVOUT, layersMonthly, List.finRange]

/-- An indexed read inside bounds is a member of the list. -/
theorem getD_mem {l : List ℚ} {i : ℕ} (h : i < l.length) : l.getD i 0 ∈ l := by
  rw [List.getD_eq_getElem l 0 h]
  exact List.getElem_mem h

/-- In a sorted list the first element bounds every member from below. -/
theorem sorted_first_le {s : List ℚ} (hs : List.Sorted (· ≤ ·) s) {x : ℚ} (hx : x ∈ s) :
    s.getD 0 0 ≤ x := by
  cases s with
  | nil => cases hx
  | cons a t =>
    rcases List.mem_cons.mp hx with rfl | hmem
    · simp
    · simpa using List.rel_of_sorted_cons hs x hmem

/-- In a sorted list the last element bounds every member from above. -/
theorem sorted_le_last {s : List ℚ} (hs : List.Sorted (· ≤ ·) s) {x : ℚ} (hx : x ∈ s) :
    x ≤ s.getD (s.length - 1) 0 := by
  induction s with
  | nil => cases hx
  | cons a t ih =>
    cases t with
    | nil =>
      rcases List.mem_cons.mp hx with rfl | hmem
      · simp
      · cases hmem
    | cons b u =>
      have hlen : (a :: b :: u).length - 1 = (b :: u).length - 1 + 1 := by simp
      rw [hlen, List.getD_cons_succ]
      rcases List.mem_cons.mp hx with rfl | hmem
      · have hmem2 : (b :: u).getD ((b :: u).length - 1) 0 ∈ (b :: u) :=
          getD_mem (by simp)
        exact List.rel_of_sorted_cons hs _ hmem2
      · exact ih (List.Sorted.of_cons hs) hmem

/-- The statistics of any non-empty accepted value set are internally
consistent: positive count, median and mean between min and max, and
non-negative variance. -/
theorem computeStats_props (values : List ℚ) (hne : values ≠ []) :
    0 < (computeStats values).count ∧
    (computeStats values).min ≤ (computeStats values).median ∧
    (computeStats values).median ≤ (computeStats values).max ∧
    (computeStats values).min ≤ (computeStats values).mean ∧
    (computeStats values).mean ≤ (computeStats values).max ∧
    0 ≤ (computeStats values).variance := by
  simp only [computeStats]
  set s := List.insertionSort (· ≤ ·) values with hs_def
  have hs : List.Sorted (· ≤ ·) s := List.sorted_insertionSort (· ≤ ·) values
  have hlen : s.length = values.length := List.length_insertionSort (· ≤ ·) values
  have hn : 0 < s.length := by
    rw [hlen]
    exact List.length_pos.mpr hne
  have hnq : (0 : ℚ) < (s.length : ℚ) := by exact_mod_cast hn
  have hminmem : ∀ x ∈ s, s.getD 0 0 ≤ x := fun x hx => sorted_first_le hs hx
  have hmaxmem : ∀ x ∈ s, x ≤ s.getD (s.length - 1) 0 := fun x hx => sorted_le_last hs hx
  have hmean_lo : s.getD 0 0 ≤ s.sum / (s.length : ℚ) := by
    rw [le_div_iff₀ hnq]
    have hges := List.card_nsmul_le_sum s (s.getD 0 0) hminmem
    rw [nsmul_eq_mul] at hges
    linarith
  have hmean_hi : s.sum / (s.length : ℚ) ≤ s.getD (s.length - 1) 0 := by
    rw [div_le_iff₀ hnq]
    have hles := List.sum_le_card_nsmul s (s.getD (s.length - 1) 0) hmaxmem
    rw [nsmul_eq_mul] at hles
    linarith
  have hmed_lo : s.getD 0 0 ≤
      (if s.length % 2 = 0 then (s.getD (s.length / 2 - 1) 0 + s.getD (s.length / 2) 0) / 2
       else s.getD (s.length / 2) 0) := by
    split_ifs with hpar
    · have h1 : s.length / 2 - 1 < s.length := by omega
      have h2 : s.length / 2 < s.length := by omega
      have hb1 := hminmem _ (getD_mem h1)
      have hb2 := hminmem _ (getD_mem h2)
      linarith
    · have h2 : s.length / 2 < s.length := by omega
      exact hminmem _ (getD_mem h2)
  have hmed_hi :
      (if s.length % 2 = 0 then (s.getD (s.length / 2 - 1) 0 + s.getD (s.length / 2) 0) / 2
       else s.getD (s.length / 2) 0) ≤ s.getD (s.length - 1) 0 := by
    split_ifs with hpar
    · have h1 : s.length / 2 - 1 < s.length := by omega
      have h2 : s.length / 2 < s.length := by omega
      have hb1 := hmaxmem _ (getD_mem h1)
      have hb2 := hmaxmem _ (getD_mem h2)
      linarith
    · have h2 : s.length / 2 < s.length := by omega
      exact hmaxmem _ (getD_mem h2)
  have hvar : (0 : ℚ) ≤
      (s.map (fun v => (v - s.sum / (s.length : ℚ)) ^ 2)).sum / (s.length : ℚ) := by
    apply div_nonneg _ (le_of_lt hnq)
    apply List.sum_nonneg
    intro x hx
    rcases List.mem_map.mp hx with ⟨v, _, rfl⟩
    positivity
  exact ⟨hn, hmed_lo, hmed_hi, hmean_lo, hmean_hi, hvar⟩

/-- Singleton statistics report exactly one sample. -/
theorem computeStats_singleton_count (v : ℚ) : (computeStats [v]).count = 1 := by
  simp [computeStats, List.insertionSort, List.orderedInsert]

/-- Rounding half up inverts the pixel-center map on every pixel index. -/
theorem jsRound_center (g w : ℕ) (h : g < w) :
    ⌊((g : ℚ) + 0.5) * ((w : ℚ) - 1) / (w : ℚ) + 0.5⌋ = (g : ℤ) := by
  have hw : (0 : ℚ) < (w : ℚ) := by
    have hw0 : 0 < w := by omega
    exact_mod_cast hw0
  have hgw : (g : ℚ) + 1 ≤ (w : ℚ) := by exact_mod_cast h
  have hg0 : (0 : ℚ) ≤ (g : ℚ) := by positivity
  rw [Int.floor_eq_iff]
  constructor
  · push_cast
    have key1 : ((g : ℚ) - 0.5) * (w : ℚ) ≤ ((g : ℚ) + 0.5) * ((w : ℚ) - 1) := by
      nlinarith
    have hlow : (g : ℚ) - 0.5 ≤ ((g : ℚ) + 0.5) * ((w : ℚ) - 1) / (w : ℚ) :=
      (le_div_iff₀ hw).mpr key1
    linarith
  · push_cast
    have key2 : ((g : ℚ) + 0.5) * ((w : ℚ) - 1) < ((g : ℚ) + 0.5) * (w : ℚ) := by
      nlinarith
    have hup : ((g : ℚ) + 0.5) * ((w : ℚ) - 1) / (w : ℚ) < (g : ℚ) + 0.5 :=
      (div_lt_iff₀ hw).mpr key2
    linarith

/-- Window of the full-coverage fixture polygon. -/
theorem computeWindow_twoPixel : computeWindow imgTwoPixel polyFull = ⟨0, 1, 0, 0⟩ := by
  norm_num [computeWindow, lonToX, latToY, imgTwoPixel, polyFull]

/-- The stride pass over the two-pixel fixture accepts both pixel values. -/
theorem strideValues_twoPixel : strideValues imgTwoPixel polyFull = [3, 7] := by
  have hbuf : readWindow imgTwoPixel (⟨0, 1, 0, 0⟩ : PixelWindow) = [3, 7] := by decide
  simp only [strideValues]
  rw [computeWindow_twoPixel, hbuf, sampleStep_eq_one (by decide)]
  norm_num [strideOffsets, pixelCenterLon, pixelCenterLat, isValidSample,
    imgTwoPixel, polyFull, PixelWindow.winW, PixelWindow.winH, List.range_succ,
    List.flatMap]
  decide

/-- The two-pixel fixture samples successfully with value set `[3, 7]`. -/
theorem sampler_twoPixel :
    sampleGeoTIFFForPolygon imgTwoPixel polyFull = .ok (computeStats [3, 7]) := by
  have hne : ([3, 7] : List ℚ) ≠ [] := by simp
  simp only [sampleGeoTIFFForPolygon, fallbackValues, computeWindow_twoPixel,
    strideValues_twoPixel, if_neg hne]
  norm_num

/-- Window of the sub-pixel fixture polygon. -/
theorem computeWindow_subPixel : computeWindow imgConst4 polySubPixel = ⟨0, 0, 0, 0⟩ := by
  norm_num [computeWindow, lonToX, latToY, imgConst4, polySubPixel]

/-- The stride pass over the sub-pixel fixture accepts nothing (no pixel
center lies inside the polygon). -/
theorem strideValues_subPixel : strideValues imgConst4 polySubPixel = [] := by
  simp only [strideValues]
  rw [computeWindow_subPixel, sampleStep_eq_one (by decide)]
  norm_num [strideOffsets, polySubPixel, PixelWindow.winW, PixelWindow.winH,
    List.range_succ, List.flatMap]

/-- The centroid fallback on the sub-pixel fixture accepts the value 4. -/
theorem centroid_subPixel : centroidValue imgConst4 polySubPixel = some 4 := by
  have hbuf : readWindow imgConst4 (⟨0, 0, 0, 0⟩ : PixelWindow) = [4] := by decide
  simp only [centroidValue]
  rw [computeWindow_subPixel, hbuf]
  norm_num [lonToX, latToY, imgConst4, polySubPixel, PixelWindow.winW,
    PixelWindow.winH, isValidSample]

/-! Claim theorems. -/

/-- Claim C1: reference-yield unit resolution.  With 12 monthly reference
values the annual specific yield is the sum times 30.4375 when the sum is
below 100 and the sum itself otherwise; with only a positive scalar
reference it is the scalar times 365 when below 10 and the scalar itself
otherwise; with no reference at all it is `GHI_mean × 365 × performanceRatio`
(so GHI mean 5.5 with performance ratio 0.75 gives exactly 1505.625). -/
theorem referenceYield_unit_resolution (monthly : List ℚ) (refv : Option ℚ) (ghi pr : ℚ) :
    (monthly.length = 12 →
      (monthly.sum < 100 →
        resolveAnnualSpecificYield monthly refv ghi pr = monthly.sum * 30.4375) ∧
      (100 ≤ monthly.sum →
        resolveAnnualSpecificYield monthly refv ghi pr = monthly.sum)) ∧
    (monthly.length ≠ 12 → ∀ r : ℚ, refv = some r → 0 < r →
      (r < 10 → resolveAnnualSpecificYield monthly refv ghi pr = r * 365) ∧
      (10 ≤ r → resolveAnnualSpecificYield monthly refv ghi pr = r)) ∧
    (monthly.length ≠ 12 → refv = Option.none →
      resolveAnnualSpecificYield monthly refv ghi pr = ghi * 365 * pr) ∧
    resolveAnnualSpecificYield [] Option.none 5.5 0.75 = 1505.625 := by
  refine ⟨?_, ?_, ?_, ?_⟩
  · intro h12
    constructor <;> intro hs <;> simp only [resolveAnnualSpecificYield, if_pos h12]
    · rw [if_pos hs]
    · rw [if_neg (not_lt.mpr hs)]
  · intro h12 r hr hpos
    subst hr
    simp only [resolveAnnualSpecificYield, if_neg h12]
    constructor <;> intro hs <;> rw [if_pos hpos]
    · rw [if_pos hs]
    · rw [if_neg (not_lt.mpr hs)]
  · intro h12 hr
    subst hr
    simp only [resolveAnnualSpecificYield, if_neg h12]
  · norm_num [resolveAnnualSpecificYield]

/-- Witness for C1: a monthly array summing to 50 is annualized as
`50 × 30.4375 = 1521.875`, via the theorem's monthly branch. -/
theorem referenceYield_unit_resolution_witness :
    resolveAnnualSpecificYield [1, 2, 3, 4, 5, 6, 7, 8, 9, 1, 2, 2] Option.none 0 0 =
      1521.875 := by
  have h := ((referenceYield_unit_resolution [1, 2, 3, 4, 5, 6, 7, 8, 9, 1, 2, 2]
      Option.none 0 0).1 (by decide)).1 (by norm_num)
  rw [h]
  norm_num

/-- Claim C2, counterexample: with area 1 m² (zero panels, zero DC capacity)
and no installed-capacity override, `computePVFromZonalStats` does not fail
with any `InsufficientAreaError` — no such error exists in the code — but
returns a result whose DC capacity is 0, so the specific-yield division at
`financialService.ts` line 951 divides by zero (its `ℚ` value here is 0;
at runtime it is `NaN`). -/
theorem zero_capacity_returns_result :
    (computePVFromZonalStats 1 cexLayers cexPreset PVOptions.none).num_panels = 0 ∧
    (computePVFromZonalStats 1 cexLayers cexPreset PVOptions.none).P_dc_kWp = 0 ∧
    (computePVFromZonalStats 1 cexLayers cexPreset PVOptions.none).specific_yield_kwh_kwp_calibrated =
      (computePVFromZonalStats 1 cexLayers cexPreset PVOptions.none).yearly_kWh_calibrated / 0 := by
  simp only [computePVFromZonalStats, calculateSystemCapacity, cexPreset, PVOptions.none,
    truthyOr, Option.getD]
  norm_num

/-- Claim C2, amended: when geometric sizing yields zero panels and no
installed-capacity override is supplied, the model returns normally with
zero DC capacity, zero calibrated energy, and a specific yield computed by
dividing by the zero capacity (0 under the `ℚ` convention, `NaN` at
runtime). -/
theorem zero_capacity_result_fields (area : ℚ) (layers : LayerMeans)
    (cfg : PVSystemPreset) (opts : PVOptions)
    (hnone : opts.installed_capacity_kWp = Option.none)
    (hzero : (computePVFromZonalStats area layers cfg opts).num_panels = 0) :
    (computePVFromZonalStats area layers cfg opts).P_dc_kWp = 0 ∧
    (computePVFromZonalStats area layers cfg opts).yearly_kWh_calibrated = 0 ∧
    (computePVFromZonalStats area layers cfg opts).specific_yield_kwh_kwp_calibrated = 0 := by
  simp only [computePVFromZonalStats, calculateSystemCapacity] at hzero ⊢
  rw [hnone] at *
  simp only [truthyOr] at *
  rw [hzero] <;> norm_num

/-- Witness for the amended C2 at the concrete 1 m² input. -/
theorem zero_capacity_result_fields_witness :
    (computePVFromZonalStats 1 cexLayers cexPreset PVOptions.none).P_dc_kWp = 0 ∧
    (computePVFromZonalStats 1 cexLayers cexPreset PVOptions.none).yearly_kWh_calibrated = 0 ∧
    (computePVFromZonalStats 1 cexLayers cexPreset PVOptions.none).specific_yield_kwh_kwp_calibrated = 0 :=
  zero_capacity_result_fields 1 cexLayers cexPreset PVOptions.none rfl
    (by simp only [computePVFromZonalStats, calculateSystemCapacity, cexPreset,
          PVOptions.none, truthyOr, Option.getD]
        norm_num)

/-- Claim C3: converting an in-range pixel index to the geographic
coordinates of its center and mapping back through the §4.2 formulas
(`round((lon - minLon)/(maxLon - minLon) × (width-1))`, Y flipped) returns
the same pixel index. -/
theorem pixel_roundtrip (img : RasterImage) (gx gy : ℕ)
    (hx : img.minX < img.maxX) (hy : img.minY < img.maxY)
    (hgx : gx < img.width) (hgy : gy < img.height) :
    jsRound (lonToX img (pixelCenterLon img (gx : ℤ))) = gx ∧
    jsRound (latToY img (pixelCenterLat img (gy : ℤ))) = gy := by
  have hdx : img.maxX - img.minX ≠ 0 := sub_ne_zero.mpr (ne_of_gt hx)
  have hdy : img.maxY - img.minY ≠ 0 := sub_ne_zero.mpr (ne_of_gt hy)
  have hwx : (img.width : ℚ) ≠ 0 := Nat.cast_ne_zero.mpr (by omega)
  have hwy : (img.height : ℚ) ≠ 0 := Nat.cast_ne_zero.mpr (by omega)
  constructor
  · have hform : lonToX img (pixelCenterLon img (gx : ℤ)) =
        ((gx : ℚ) + 0.5) * ((img.width : ℚ) - 1) / (img.width : ℚ) := by
      unfold lonToX pixelCenterLon
      push_cast
      field_simp
      ring
    rw [jsRound, hform]
    exact jsRound_center gx img.width hgx
  · have hform : latToY img (pixelCenterLat img (gy : ℤ)) =
        ((gy : ℚ) + 0.5) * ((img.height : ℚ) - 1) / (img.height : ℚ) := by
      unfold latToY pixelCenterLat
      push_cast
      field_simp
      ring
    rw [jsRound, hform]
    exact jsRound_center gy img.height hgy

/-- Witness for C3 on the two-pixel fixture at pixel `(1, 0)`. -/
theorem pixel_roundtrip_witness :
    jsRound (lonToX imgTwoPixel (pixelCenterLon imgTwoPixel ((1 : ℕ) : ℤ))) = ((1 : ℕ) : ℤ) ∧
    jsRound (latToY imgTwoPixel (pixelCenterLat imgTwoPixel ((0 : ℕ) : ℤ))) = ((0 : ℕ) : ℤ) :=
  pixel_roundtrip imgTwoPixel 1 0 (by norm_num [imgTwoPixel]) (by norm_num [imgTwoPixel])
    (by norm_num [imgTwoPixel]) (by norm_num [imgTwoPixel])

/-- Claim C4: system sizing computes `effectiveArea = area × packingFactor`,
`panelCount = floor(effectiveArea / moduleFootprint)`,
`dcCapacity = panelCount × modulePower / 1000`, `acCapacity = dc / dcAcRatio`;
for 100 m², packing 0.8, footprint 1.7 m², 420 W this gives 47 panels and
19.74 kWp. -/
theorem system_capacity_formulas (area mA mpW pf dcac : ℚ) :
    (calculateSystemCapacity area mA mpW pf dcac).area_eff = area * pf ∧
    (calculateSystemCapacity area mA mpW pf dcac).num_panels = ⌊area * pf / mA⌋ ∧
    (calculateSystemCapacity area mA mpW pf dcac).P_dc_kWp =
      (⌊area * pf / mA⌋ : ℚ) * mpW / 1000 ∧
    (calculateSystemCapacity area mA mpW pf dcac).P_ac_kW =
      (⌊area * pf / mA⌋ : ℚ) * mpW / 1000 / dcac ∧
    (calculateSystemCapacity 100 1.7 420 0.8 1.15).num_panels = 47 ∧
    (calculateSystemCapacity 100 1.7 420 0.8 1.15).P_dc_kWp = 19.74 := by
  refine ⟨rfl, rfl, rfl, rfl, ?_, ?_⟩ <;> norm_num [calculateSystemCapacity]

/-- Claim C5: the technology temperature correction is the clamp to
`[0.90, 1.05]` of `1 + (techCoeff − refCoeff)(T_cell − 25)` with
`T_cell = T_ambient + (NOCT − 20)`, and the applied factor — for every
technology, every ambient temperature, and in every pipeline result — lies
within `[0.90, 1.05]`. -/
theorem tech_temp_factor_clamped :
    (∀ (tech : PanelTechnology) (t : ℚ),
      techTempFactor (PanelTechProfiles tech) t =
        max 0.9 (min 1.05
          (1 + ((PanelTechProfiles tech).temperatureCoefficient / 100 - (-0.0035)) *
            ((t + ((PanelTechProfiles tech).noct - 20)) - 25))) ∧
      0.9 ≤ techTempFactor (PanelTechProfiles tech) t ∧
      techTempFactor (PanelTechProfiles tech) t ≤ 1.05) ∧
    (∀ (area : ℚ) (layers : LayerMeans) (cfg : PVSystemPreset) (opts : PVOptions),
      0.9 ≤ (computePVFromZonalStats area layers cfg opts).f_tech_temp ∧
      (computePVFromZonalStats area layers cfg opts).f_tech_temp ≤ 1.05) := by
  have hb : ∀ (pr : PanelTechProfile) (t : ℚ),
      0.9 ≤ techTempFactor pr t ∧ techTempFactor pr t ≤ 1.05 := by
    intro pr t
    unfold techTempFactor
    exact ⟨le_max_left _ _, max_le (by norm_num) (min_le_left _ _)⟩
  constructor
  · intro tech t
    exact ⟨rfl, hb _ t⟩
  · intro area layers cfg opts
    simp only [computePVFromZonalStats]
    exact hb _ _

/-- Claim C6, counterexample: with no monthly reference layers, a scalar
PVOUT reference of 1500 and a missing GHI layer (mean treated as 0), the
latitude-based distribution divides by a zero total, so the 12 monthly
values sum to 0 while the usable annual energy is 29610 kWh — the claimed
equality fails (at runtime the monthly values are `NaN`). -/
theorem monthly_sum_mismatch_cex :
    (computePVFromZonalStats 100 cexLayers cexPreset PVOptions.none).monthly_kWh_usable.sum ≠
    (computePVFromZonalStats 100 cexLayers cexPreset PVOptions.none).yearly_kWh_usable := by
  simp only [computePVFromZonalStats, monthlyPVOUT_cex]
  norm_num [cexLayers, cexPreset, PVOptions.none, truthyOr, Option.getD,
    calculateSystemCapacity, resolveAnnualSpecificYield, techTempFactor,
    PanelTechProfiles, gridUsableFraction, estimateMonthlyGHI, variationFactor,
    baseFactors, min_def, max_def]

/-- Claim C6, amended: the 12 monthly usable-energy values sum exactly to the
usable annual energy on the monthly-reference path whenever the raw monthly
values have non-zero sum, and on the latitude path whenever the GHI mean
entering the seasonal model is non-zero. -/
theorem monthly_sum_eq_usable (area : ℚ) (layers : LayerMeans)
    (cfg : PVSystemPreset) (opts : PVOptions) :
    ((monthlyPVOUT layers).length = 12 → (monthlyPVOUT layers).sum ≠ 0 →
      (computePVFromZonalStats area layers cfg opts).monthly_kWh_usable.sum =
        (computePVFromZonalStats area layers cfg opts).yearly_kWh_usable) ∧
    ((monthlyPVOUT layers).length ≠ 12 →
      (computePVFromZonalStats area layers cfg opts).ghi_mean ≠ 0 →
      (computePVFromZonalStats area layers cfg opts).monthly_kWh_usable.sum =
        (computePVFromZonalStats area layers cfg opts).yearly_kWh_usable) := by
  simp only [computePVFromZonalStats]
  constructor
  · intro h12 hsum
    rw [if_pos h12, shares_sum_eq, div_self hsum, one_mul]
  · intro h12 hg
    rw [if_neg h12, shares_sum_eq, estimateMonthlyGHI_sum]
    have h12g : (12 : ℚ) * truthyOr layers.GHI 0 ≠ 0 := mul_ne_zero (by norm_num) hg
    rw [div_self h12g, one_mul]

/-- Witness for the amended C6 on twelve monthly reference values of 100. -/
theorem monthly_sum_eq_usable_witness :
    (computePVFromZonalStats 100 layersMonthly cexPreset PVOptions.none).monthly_kWh_usable.sum =
      (computePVFromZonalStats 100 layersMonthly cexPreset PVOptions.none).yearly_kWh_usable :=
  (monthly_sum_eq_usable 100 layersMonthly cexPreset PVOptions.none).1
    (by rw [monthlyPVOUT_layersMonthly]; rfl) (by rw [monthlyPVOUT_layersMonthly]; norm_num)

/-- Claim C7: whenever zonal sampling succeeds, the returned statistics have
`count > 0`, `min ≤ median ≤ max`, `min ≤ mean ≤ max`, non-negative variance
and hence `std = sqrt(variance) ≥ 0`. -/
theorem zonal_stats_valid (img : RasterImage) (p : PolygonOracle) (st : ZonalStats)
    (h : sampleGeoTIFFForPolygon img p = .ok st) :
    0 < st.count ∧ st.min ≤ st.median ∧ st.median ≤ st.max ∧
    st.min ≤ st.mean ∧ st.mean ≤ st.max ∧ 0 ≤ st.variance ∧
    (0 : ℝ) ≤ Real.sqrt ((st.variance : ℚ) : ℝ) := by
  simp only [sampleGeoTIFFForPolygon] at h
  split at h
  · exact Except.noConfusion h
  · split at h
    · exact Except.noConfusion h
    · rename_i hne
      injection h with h2
      subst h2
      obtain ⟨p1, p2, p3, p4, p5, p6⟩ := computeStats_props _ hne
      exact ⟨p1, p2, p3, p4, p5, p6, Real.sqrt_nonneg _⟩

/-- Witness for C7 on the two-pixel fixture: the statistics of `[3, 7]`. -/
theorem zonal_stats_valid_witness :
    0 < (computeStats [(3 : ℚ), 7]).count ∧
    (computeStats [(3 : ℚ), 7]).min ≤ (computeStats [(3 : ℚ), 7]).median ∧
    (computeStats [(3 : ℚ), 7]).median ≤ (computeStats [(3 : ℚ), 7]).max ∧
    (computeStats [(3 : ℚ), 7]).min ≤ (computeStats [(3 : ℚ), 7]).mean ∧
    (computeStats [(3 : ℚ), 7]).mean ≤ (computeStats [(3 : ℚ), 7]).max ∧
    0 ≤ (computeStats [(3 : ℚ), 7]).variance ∧
    (0 : ℝ) ≤ Real.sqrt (((computeStats [(3 : ℚ), 7]).variance : ℚ) : ℝ) :=
  zonal_stats_valid imgTwoPixel polyFull (computeStats [3, 7]) sampler_twoPixel

/-- Claim C8: given a non-empty pixel window, the sampler fails with the
no-valid-data error exactly when the stride pass accepts nothing and the
centroid fallback pixel is invalid or outside the window; and when the
stride pass accepts nothing but the centroid pixel is valid, the call
succeeds with exactly one valid sample. -/
theorem noValidData_iff_fallback_fails (img : RasterImage) (p : PolygonOracle)
    (hw : ¬((computeWindow img p).xMin > (computeWindow img p).xMax ∨
            (computeWindow img p).yMin > (computeWindow img p).yMax)) :
    (sampleGeoTIFFForPolygon img p = .error .noValidData ↔
      strideValues img p = [] ∧ centroidValue img p = Option.none) ∧
    (strideValues img p = [] → ∀ v, centroidValue img p = some v →
      sampleGeoTIFFForPolygon img p = .ok (computeStats [v]) ∧
      (computeStats [v]).count = 1) := by
  simp only [sampleGeoTIFFForPolygon, fallbackValues, if_neg hw]
  by_cases hsv : strideValues img p = []
  · cases hc : centroidValue img p with
    | none =>
      simp only [hsv, hc, if_pos rfl]
      constructor
      · simp
      · intro _ v hv
        cases hv
    | some v =>
      simp only [hsv, hc, if_pos rfl]
      constructor
      · simp
      · intro _ v2 hv2
        injection hv2 with hv2
        subst hv2
        simp [computeStats_singleton_count]
  · simp only [if_neg hsv]
    constructor
    · simp [hsv]
    · intro h
      exact absurd h hsv

/-- Witness for C8 on the sub-pixel fixture: the stride pass is empty, the
centroid pixel (value 4) is valid, and the call succeeds with one sample. -/
theorem noValidData_iff_fallback_fails_witness :
    sampleGeoTIFFForPolygon imgConst4 polySubPixel = .ok (computeStats [4]) ∧
    (computeStats [(4 : ℚ)]).count = 1 :=
  (noValidData_iff_fallback_fails imgConst4 polySubPixel
      (by rw [computeWindow_subPixel]; simp)).2
    strideValues_subPixel 4 centroid_subPixel

/-- Claim C9, counterexample: at clearness index exactly `kt = 0.8`
(GHI 0.8, clear-sky GHI 1) the code returns 0.165, not the Erbs polynomial
value 0.1652696 that the claim prescribes for `0.22 < kt ≤ 0.8`. -/
theorem erbs_boundary_cex :
    erbsDiffuseFraction 0.8 1 ≠
      0.9511 - 0.1604 * ((0.8 : ℚ) / 1) + 4.388 * ((0.8 : ℚ) / 1) ^ 2 -
        16.638 * ((0.8 : ℚ) / 1) ^ 3 + 12.336 * ((0.8 : ℚ) / 1) ^ 4 := by
  norm_num [erbsDiffuseFraction]

/-- Claim C9, amended: the diffuse fraction is 1 for `kt ≤ 0`,
`1 − 0.09·kt` for `0 < kt ≤ 0.22`, the Erbs polynomial for
`0.22 < kt < 0.8`, and 0.165 for `kt ≥ 0.8` (the polynomial branch is open
at 0.8); the back-derived DNI is `max(0, (GHI − DIF)/cos(zenith))` except
that it is zero whenever the solar zenith exceeds 85°, with
`DIF = GHI × fraction`. -/
theorem erbs_piecewise_and_dni (ghi cs zen cosz : ℚ) :
    (ghi / cs ≤ 0 → erbsDiffuseFraction ghi cs = 1) ∧
    (0 < ghi / cs → ghi / cs ≤ 0.22 →
      erbsDiffuseFraction ghi cs = 1 - 0.09 * (ghi / cs)) ∧
    (0.22 < ghi / cs → ghi / cs < 0.8 →
      erbsDiffuseFraction ghi cs =
        0.9511 - 0.1604 * (ghi / cs) + 4.388 * (ghi / cs) ^ 2 -
          16.638 * (ghi / cs) ^ 3 + 12.336 * (ghi / cs) ^ 4) ∧
    (0.8 ≤ ghi / cs → erbsDiffuseFraction ghi cs = 0.165) ∧
    (85 < zen → (decomposeGHI ghi cs zen cosz).1 = 0) ∧
    (zen ≤ 85 → (decomposeGHI ghi cs zen cosz).1 =
      max 0 ((ghi - ghi * erbsDiffuseFraction ghi cs) / cosz)) ∧
    (decomposeGHI ghi cs zen cosz).2 = ghi * erbsDiffuseFraction ghi cs := by
  refine ⟨?_, ?_, ?_, ?_, ?_, ?_, rfl⟩
  · intro h
    simp only [erbsDiffuseFraction]
    rw [if_pos h]
    norm_num
  · intro h0 h22
    simp only [erbsDiffuseFraction]
    rw [if_neg (not_le.mpr h0), if_neg (not_le.mpr (lt_of_le_of_lt h22 (by norm_num))),
      if_pos h22]
    norm_num
  · intro hlo hhi
    simp only [erbsDiffuseFraction]
    rw [if_neg (not_le.mpr (lt_trans (by norm_num) hlo)), if_neg (not_le.mpr hhi),
      if_neg (not_le.mpr hlo), if_pos (le_of_lt hhi)]
    ring
  · intro h8
    simp only [erbsDiffuseFraction]
    rw [if_neg (not_le.mpr (lt_of_lt_of_le (by norm_num) h8)), if_pos h8]
  · intro h
    simp only [decomposeGHI]
    rw [if_pos h]
  · intro h
    simp only [decomposeGHI]
    rw [if_neg (not_lt.mpr h)]

/-- Witness for the amended C9 in the polynomial branch at `kt = 0.5` and
the DNI branch at zenith 30°. -/
theorem erbs_piecewise_and_dni_witness :
    (erbsDiffuseFraction 0.5 1 =
      0.9511 - 0.1604 * ((0.5 : ℚ) / 1) + 4.388 * ((0.5 : ℚ) / 1) ^ 2 -
        16.638 * ((0.5 : ℚ) / 1) ^ 3 + 12.336 * ((0.5 : ℚ) / 1) ^ 4) ∧
    (decomposeGHI 0.5 1 30 0.8 ).1 =
      max 0 ((0.5 - 0.5 * erbsDiffuseFraction 0.5 1) / 0.8) :=
  ⟨(erbs_piecewise_and_dni 0.5 1 30 0.8).2.2.1 (by norm_num) (by norm_num),
   (erbs_piecewise_and_dni 0.5 1 30 0.8).2.2.2.2.2.1 (by norm_num)⟩

/-- Claim C10: for every annual GHI and latitude the monthly estimator
returns exactly 12 values whose sum is `12 × annualGHI`, i.e. whose
arithmetic mean is the input annual GHI. -/
theorem monthly_estimator_mean_preserved (g lat : ℚ) :
    (estimateMonthlyGHI g lat).length = 12 ∧
    (estimateMonthlyGHI g lat).sum = 12 * g ∧
    (estimateMonthlyGHI g lat).sum / ((estimateMonthlyGHI g lat).length : ℚ) = g := by
  refine ⟨estimateMonthlyGHI_length g lat, estimateMonthlyGHI_sum g lat, ?_⟩
  rw [estimateMonthlyGHI_sum, estimateMonthlyGHI_length]
  norm_num

end SolarSense
